import Mathlib

/-!
Verification of the DeltaShorelineModel numerical core.

The development shallowly embeds the model functions of `simplebox.py` and
`advancedbox.py`:

* `shoreline_location` — the simple box model (mask `eta > 0 ∧ t > 0`,
  value `Qs * t / eta`, anchor 0 elsewhere);
* `shoreline_location_advanced` — the slope-aware model (slope validation
  gate returning an all-NaN series, clamped radicand, masked formula);
* `seaLevelSeries` — the sea-level synthesizer
  `eta = Z0 + Zdot*t + sinusoid1 + sinusoid2`;
* the axis-range unification code (`y_max`/`y_min` with the `np.any`
  guards, Python `max`/`min` semantics on possibly-NaN values, pad
  factor 1.1, and the shoreline forced-to-zero rule).

Python floats are idealised as real numbers (for the models, so that
`sqrt`/`sin` are available) and as rationals (for the range unifier,
keeping every predicate decidable).  A float NaN is `Option.none`; Python
comparisons on possibly-NaN values return `false` whenever a NaN is
involved, which the `vlt`/`vgt`/`vle` functions below reproduce.
-/

namespace DeltaShoreline

/-- Slope validity: the negation of the rejection test at
`advancedbox.py:12`, `S_t <= 0 or S_b <= 0 or S_f <= 0 or not (S_t < S_b < S_f)`. -/
def validSlopes {α : Type} [LinearOrderedField α] (S_t S_b S_f : α) : Prop :=
  ¬(S_t ≤ 0 ∨ S_b ≤ 0 ∨ S_f ≤ 0 ∨ ¬(S_t < S_b ∧ S_b < S_f))

instance (a b c : ℚ) : Decidable (validSlopes a b c) := by
  unfold validSlopes; infer_instance

/-- The slope validator as a boolean predicate (`SlopeValidator.validate`
of the spec), with arguments in the order topset, basement, foreset. -/
def validate (topset basement foreset : ℚ) : Bool :=
  decide (validSlopes topset basement foreset)

theorem validSlopes_iff {α : Type} [LinearOrderedField α] (S_t S_b S_f : α) :
    validSlopes S_t S_b S_f ↔ 0 < S_t ∧ 0 < S_b ∧ 0 < S_f ∧ S_t < S_b ∧ S_b < S_f := by
  unfold validSlopes
  push_neg
  tauto

/-- Simple box model, `simplebox.py:8`: zeros except where
`(eta > 0) & (t > 0)`, there `Qs * t / eta`. -/
def shoreline_location {α : Type} [LinearOrderedField α]
    (Qs : α) (eta t : List α) : List α :=
  (eta.zip t).map fun p => if 0 < p.1 ∧ 0 < p.2 then Qs * p.2 / p.1 else 0

/-- Advanced box model, `advancedbox.py:5`: reject invalid slopes with an
all-NaN series (NaN is `none`); otherwise zeros except where
`(eta > 0) & (t > 0)`, there `-eta/S_b + sqrt(arg)` with the radicand
`2*q_s*t/denom` clamped to 0 from below (`np.where(sqrt_arg < 0, 0, ...)`). -/
noncomputable def shoreline_location_advanced (q_s : ℝ) (eta t : List ℝ)
    (S_t S_f S_b : ℝ) : List (Option ℝ) :=
  if S_t ≤ 0 ∨ S_b ≤ 0 ∨ S_f ≤ 0 ∨ ¬(S_t < S_b ∧ S_b < S_f) then
    List.replicate t.length none
  else
    let alpha := S_t / (S_b - S_t)
    let beta := S_f / (S_f - S_b)
    let denom := S_b * (alpha + beta)
    (eta.zip t).map fun p =>
      if 0 < p.1 ∧ 0 < p.2 then
        some (-p.1 / S_b +
          Real.sqrt (if 2 * q_s * p.2 / denom < 0 then 0 else 2 * q_s * p.2 / denom))
      else some 0

/-- The N=500 uniform time axis `np.linspace(0, tmax, n)`:
sample `i` is `tmax * i / (n - 1)`. -/
noncomputable def linspace (tmax : ℝ) (n : ℕ) : List ℝ :=
  (List.range n).map fun i : ℕ => tmax * (i : ℝ) / ((n : ℝ) - 1)

/-- Sea-level synthesis, `simplebox.py:113`–`117` (identically
`advancedbox.py:136`–`140`): `eta = Z0 + Zdot*t + sinusoid1 + sinusoid2`,
where each sinusoid array is `A * sin(2*pi*t/P)` when its scalar guard
`enable and P > 0` holds and an all-zero array otherwise. -/
noncomputable def seaLevelSeries (Z0 Zdot : ℝ) (e1 : Bool) (A1 P1 : ℝ)
    (e2 : Bool) (A2 P2 : ℝ) (t : List ℝ) : List ℝ :=
  List.zipWith (· + ·)
    (List.zipWith (· + ·)
      (t.map fun x => Z0 + Zdot * x)
      (if e1 = true ∧ 0 < P1 then t.map fun x => A1 * Real.sin (2 * Real.pi * x / P1)
       else t.map fun _ => 0))
    (if e2 = true ∧ 0 < P2 then t.map fun x => A2 * Real.sin (2 * Real.pi * x / P2)
     else t.map fun _ => 0)

/-- Pointwise sea level as the spec states it (§4.1):
`eta(t) = baseline + linearRate*t + S1(t) + S2(t)` with
`Sk(t) = amplitude_k * sin(2*pi*t/period_k)` when sinusoid k is enabled
and its period is positive, and `Sk(t) = 0` otherwise. -/
noncomputable def etaSpec (Z0 Zdot : ℝ) (e1 : Bool) (A1 P1 : ℝ)
    (e2 : Bool) (A2 P2 : ℝ) (x : ℝ) : ℝ :=
  Z0 + Zdot * x +
    (if e1 = true ∧ 0 < P1 then A1 * Real.sin (2 * Real.pi * x / P1) else 0) +
    (if e2 = true ∧ 0 < P2 then A2 * Real.sin (2 * Real.pi * x / P2) else 0)

/-- A scenario's structured result (§3 `ModelResult`): shared time axis,
synthesized sea level, shoreline series (elements `none` are NaN), and
the validity flag. -/
structure ModelResult where
  time : List ℝ
  seaLevel : List ℝ
  shoreline : List (Option ℝ)
  valid : Prop

/-- One advanced-model scenario, as assembled by
`advancedbox.py:136`–`152`: `t = linspace(0, tmax, 500)`, synthesized
`eta`, the advanced shoreline series, and validity as the negation of the
`invalid1` flag of line 151. -/
noncomputable def runScenarioAdvanced (q_s tmax S_t S_f S_b Z0 Zdot : ℝ)
    (e1 : Bool) (A1 P1 : ℝ) (e2 : Bool) (A2 P2 : ℝ) : ModelResult :=
  let t := linspace tmax 500
  let eta := seaLevelSeries Z0 Zdot e1 A1 P1 e2 A2 P2 t
  { time := t
    seaLevel := eta
    shoreline := shoreline_location_advanced q_s eta t S_t S_f S_b
    valid := ¬(S_t ≤ 0 ∨ S_b ≤ 0 ∨ S_f ≤ 0 ∨ ¬(S_t < S_b ∧ S_b < S_f)) }

/-- A float that may be NaN: `none` is NaN, `some x` a finite value
(floats idealised as rationals). -/
abbrev NFloat : Type := Option ℚ

/-- Python truthiness of a float: `0.0` is falsy, every other value —
NaN included — is truthy.  This is the elementwise test `np.any` makes. -/
def truthy (v : NFloat) : Bool :=
  match v with
  | none => true
  | some x => decide (x ≠ 0)

/-- `np.any` on a float array: true iff some element is truthy. -/
def npAny (l : List NFloat) : Bool := l.any truthy

/-- `np.nanmax`: maximum of the non-NaN elements; NaN when none remain. -/
def nanmax (l : List NFloat) : NFloat := (l.filterMap id).max?

/-- `np.nanmin`: minimum of the non-NaN elements; NaN when none remain. -/
def nanmin (l : List NFloat) : NFloat := (l.filterMap id).min?

/-- Python `<` on floats: false whenever either side is NaN. -/
def vlt (a b : NFloat) : Bool :=
  match a, b with
  | some x, some y => decide (x < y)
  | _, _ => false

/-- Python `>` on floats: false whenever either side is NaN. -/
def vgt (a b : NFloat) : Bool :=
  match a, b with
  | some x, some y => decide (y < x)
  | _, _ => false

/-- Python `<=` on floats: false whenever either side is NaN. -/
def vle (a b : NFloat) : Bool :=
  match a, b with
  | some x, some y => decide (x ≤ y)
  | _, _ => false

/-- Python `max(a, b)`: keep `a`, replace by `b` only when `b > a`;
with NaN every comparison fails, so `max(NaN, x) = NaN` while
`max(x, NaN) = x`. -/
def pymax (a b : NFloat) : NFloat := if vgt b a then b else a

/-- Python `min(a, b)`, same order-dependent NaN behaviour. -/
def pymin (a b : NFloat) : NFloat := if vlt b a then b else a

/-- The guarded extreme `np.nanmax(A) if np.any(A) else 0` used at
`simplebox.py:153`–`158` and `advancedbox.py:184`–`189`. -/
def contribMax (A : List NFloat) : NFloat := if npAny A then nanmax A else some 0

/-- The guarded extreme `np.nanmin(A) if np.any(A) else 0`. -/
def contribMin (A : List NFloat) : NFloat := if npAny A then nanmin A else some 0

/-- Upper axis bound for a pair of series
(`y_max_eta`/`y_max_X`/`y_max_s`): Python `max` of the two guarded
extremes, times the pad factor 1.1. -/
def y_max_pair (A B : List NFloat) : NFloat :=
  (pymax (contribMax A) (contribMax B)).map fun x => x * (11 / 10)

/-- Lower axis bound for the sea-level pair (`y_min_eta`): Python `min`
of the guarded extremes, times the pad factor 1.1. -/
def y_min_eta_pair (A B : List NFloat) : NFloat :=
  (pymin (contribMin A) (contribMin B)).map fun x => x * (11 / 10)

/-- Lower axis bound for the shoreline pair (`y_min_X`/`y_min_s`,
`simplebox.py:158`–`159`): Python `min` of the guarded extremes — with no
pad factor — then forced to 0 when positive (`if y_min_X > 0: y_min_X = 0`). -/
def y_min_shore_pair (A B : List NFloat) : NFloat :=
  let m := pymin (contribMin A) (contribMin B)
  if vgt m (some 0) then some 0 else m

/-- Division that flags the IEEE NaN/Inf source: `none` when the divisor
is zero. -/
noncomputable def cdiv (x y : ℝ) : Option ℝ := if y = 0 then none else some (x / y)

/-- Square root that flags the IEEE NaN source: `none` on a negative
radicand. -/
noncomputable def csqrt (x : ℝ) : Option ℝ := if x < 0 then none else some (Real.sqrt x)

/-- The simple model with its one division checked: `none` would record a
division by zero at a masked-in sample. -/
noncomputable def shoreline_location_checked (Qs : ℝ) (eta t : List ℝ) :
    List (Option ℝ) :=
  (eta.zip t).map fun p =>
    if 0 < p.1 ∧ 0 < p.2 then cdiv (Qs * p.2) p.1 else some 0

/-- One masked-in sample of the advanced model with every division and
the square root checked, in the source's evaluation order: `alpha`,
`beta`, the radicand over `denom`, the clamp, the root, and `-eta/S_b`. -/
noncomputable def advancedPointChecked (q_s S_t S_f S_b : ℝ) (p : ℝ × ℝ) :
    Option ℝ :=
  (cdiv S_t (S_b - S_t)).bind fun alpha =>
  (cdiv S_f (S_f - S_b)).bind fun beta =>
  (cdiv (2 * q_s * p.2) (S_b * (alpha + beta))).bind fun arg =>
  (csqrt (if arg < 0 then 0 else arg)).bind fun root =>
  (cdiv (-p.1) S_b).map fun head => head + root

/-- The advanced model's valid-slope branch with checked arithmetic. -/
noncomputable def shoreline_location_advanced_checked (q_s : ℝ) (eta t : List ℝ)
    (S_t S_f S_b : ℝ) : List (Option ℝ) :=
  (eta.zip t).map fun p =>
    if 0 < p.1 ∧ 0 < p.2 then advancedPointChecked q_s S_t S_f S_b p else some 0

/-! ### List indexing helpers -/

theorem getElem?_map_zip {β : Type} (f : ℝ × ℝ → β) (l₁ l₂ : List ℝ) (i : ℕ)
    (h₁ : i < l₁.length) (h₂ : i < l₂.length) :
    ((l₁.zip l₂).map f)[i]? = some (f (l₁[i], l₂[i])) := by
  have hz : i < (l₁.zip l₂).length := by rw [List.length_zip]; omega
  have hm : i < ((l₁.zip l₂).map f).length := by rw [List.length_map]; exact hz
  rw [List.getElem?_eq_getElem hm, List.getElem_map, List.getElem_zip]

theorem getElem?_linspace (tmax : ℝ) (n i : ℕ) (h : i < n) :
    (linspace tmax n)[i]? = some (tmax * i / ((n : ℝ) - 1)) := by
  unfold linspace
  have hm : i < ((List.range n).map fun j : ℕ => tmax * (j : ℝ) / ((n : ℝ) - 1)).length := by
    rw [List.length_map, List.length_range]; exact h
  rw [List.getElem?_eq_getElem hm, List.getElem_map, List.getElem_range]

theorem length_linspace (tmax : ℝ) (n : ℕ) : (linspace tmax n).length = n := by
  unfold linspace
  rw [List.length_map, List.length_range]

theorem length_seaLevelSeries (Z0 Zdot : ℝ) (e1 : Bool) (A1 P1 : ℝ)
    (e2 : Bool) (A2 P2 : ℝ) (t : List ℝ) :
    (seaLevelSeries Z0 Zdot e1 A1 P1 e2 A2 P2 t).length = t.length := by
  unfold seaLevelSeries
  rw [List.length_zipWith, List.length_zipWith, List.length_map]
  rcases Classical.em (e1 = true ∧ 0 < P1) with h1 | h1 <;>
    rcases Classical.em (e2 = true ∧ 0 < P2) with h2 | h2 <;>
      simp [h1, h2]

theorem getElem?_seaLevelSeries (Z0 Zdot : ℝ) (e1 : Bool) (A1 P1 : ℝ)
    (e2 : Bool) (A2 P2 : ℝ) (t : List ℝ) (i : ℕ) (hi : i < t.length) :
    (seaLevelSeries Z0 Zdot e1 A1 P1 e2 A2 P2 t)[i]? =
      some (etaSpec Z0 Zdot e1 A1 P1 e2 A2 P2 t[i]) := by
  have hlen := length_seaLevelSeries Z0 Zdot e1 A1 P1 e2 A2 P2 t
  have hi' : i < (seaLevelSeries Z0 Zdot e1 A1 P1 e2 A2 P2 t).length := by omega
  rw [List.getElem?_eq_getElem hi']
  unfold seaLevelSeries at hi' ⊢
  rw [List.getElem_zipWith, List.getElem_zipWith, List.getElem_map]
  unfold etaSpec
  rcases Classical.em (e1 = true ∧ 0 < P1) with h1 | h1 <;>
    rcases Classical.em (e2 = true ∧ 0 < P2) with h2 | h2 <;>
      simp [h1, h2]

/-! ### Claims -/

/-- C3: slope validation is a pure predicate holding iff all three slopes
are strictly positive and `topset < basement < foreset`; in particular
`validate 0.01 0.05 0.1` is true while `validate 0.05 0.01 0.1`,
`validate 0.01 0.05 0.02` and `validate (-0.01) 0.05 0.1` are all false. -/
theorem claim_C3_slope_validator :
    (∀ topset basement foreset : ℚ,
      validate topset basement foreset = true ↔
        0 < topset ∧ 0 < basement ∧ 0 < foreset ∧
          topset < basement ∧ basement < foreset) ∧
    validate (1/100) (5/100) (1/10) = true ∧
    validate (5/100) (1/100) (1/10) = false ∧
    validate (1/100) (5/100) (2/100) = false ∧
    validate (-1/100) (5/100) (1/10) = false := by
  have hch : ∀ a b c : ℚ, validate a b c = true ↔
      0 < a ∧ 0 < b ∧ 0 < c ∧ a < b ∧ b < c := by
    intro a b c
    rw [validate, decide_eq_true_eq, validSlopes_iff]
  have hch' : ∀ a b c : ℚ, validate a b c = false ↔
      ¬(0 < a ∧ 0 < b ∧ 0 < c ∧ a < b ∧ b < c) := by
    intro a b c
    rw [validate, decide_eq_false_iff_not, validSlopes_iff]
  refine ⟨hch, ?_, ?_, ?_, ?_⟩
  · rw [hch]; norm_num
  · rw [hch']; norm_num
  · rw [hch']; norm_num
  · rw [hch']; norm_num

/-- Witness for C3: the characterization applied at a concrete slope
triple. -/
theorem claim_C3_slope_validator_witness : validate 2 3 4 = true :=
  (claim_C3_slope_validator.1 2 3 4).mpr (by norm_num)

/-- C2: for every supply rate and equal-length sea-level and time arrays,
the simple model returns `Qs * t[i] / eta[i]` exactly at each index where
`t[i] > 0` and `eta[i] > 0`, and 0 at every other index. -/
theorem claim_C2_simple_model (Qs : ℝ) (eta t : List ℝ)
    (i : ℕ) (h1 : i < eta.length) (h2 : i < t.length) :
    (shoreline_location Qs eta t)[i]? =
      some (if 0 < eta[i] ∧ 0 < t[i] then Qs * t[i] / eta[i] else 0) := by
  unfold shoreline_location
  rw [getElem?_map_zip _ eta t i h1 h2]

/-- Witness for C2: a masked-in sample of a concrete scenario. -/
theorem claim_C2_simple_model_witness :
    (shoreline_location (250 : ℝ) [2] [4])[0]? =
      some (if (0 : ℝ) < 2 ∧ (0 : ℝ) < 4 then 250 * 4 / 2 else 0) := by
  have h := claim_C2_simple_model (250 : ℝ) [2] [4] 0 (by simp) (by simp)
  simpa using h

theorem ite_clamp (x : ℝ) : (if x < 0 then (0 : ℝ) else x) = max x 0 := by
  rcases lt_or_le x 0 with h | h
  · rw [if_pos h, max_eq_right h.le]
  · rw [if_neg (not_lt.mpr h), max_eq_left h]

/-- C1: for every supply rate, slopes passing validation, and equal-length
sea-level and time arrays, the advanced model returns
`-eta[i]/S_b + sqrt(max(2*q_s*t[i]/denom, 0))` at each index with
`t[i] > 0` and `eta[i] > 0`, where
`denom = S_b * (S_t/(S_b - S_t) + S_f/(S_f - S_b))`, and 0 at every other
index. -/
theorem claim_C1_advanced_model (q_s S_t S_f S_b : ℝ) (eta t : List ℝ)
    (hv : validSlopes S_t S_b S_f)
    (i : ℕ) (h1 : i < eta.length) (h2 : i < t.length) :
    (shoreline_location_advanced q_s eta t S_t S_f S_b)[i]? =
      some (if 0 < eta[i] ∧ 0 < t[i] then
        some (-eta[i] / S_b +
          Real.sqrt (max (2 * q_s * t[i] /
            (S_b * (S_t / (S_b - S_t) + S_f / (S_f - S_b)))) 0))
      else some 0) := by
  unfold shoreline_location_advanced
  rw [if_neg hv]
  simp only [getElem?_map_zip _ eta t i h1 h2]
  rw [ite_clamp]

/-- Witness for C1: the theorem applied to a concrete validated scenario
(`q_s = 1`, slopes `0.01 < 0.05 < 0.1`, single sample `eta = 2`, `t = 3`). -/
theorem claim_C1_advanced_model_witness :
    (shoreline_location_advanced 1 [2] [3] (1/100) (1/10) (5/100))[0]? =
      some (if (0 : ℝ) < 2 ∧ (0 : ℝ) < 3 then
        some (-(2 : ℝ) / (5/100) +
          Real.sqrt (max (2 * 1 * 3 /
            ((5/100) * ((1/100) / ((5/100) - 1/100) + (1/10) / ((1/10) - 5/100)))) 0))
      else some 0) := by
  have h := claim_C1_advanced_model 1 (1/100) (1/10) (5/100) [2] [3]
    ((validSlopes_iff _ _ _).mpr (by norm_num)) 0 (by simp) (by simp)
  simpa using h

/-- C4: whenever the slopes violate `0 < S_t < S_b < S_f`, the advanced
model does not evaluate the formula: it returns a series whose every
element is NaN (`none`), of the same length as the time axis, and the
scenario result's `valid` flag is false.  In the embedding this is a
returned value, not an exception: the function is total. -/
theorem claim_C4_invalid_slopes_nan (q_s S_t S_f S_b tmax Z0 Zdot : ℝ)
    (e1 : Bool) (A1 P1 : ℝ) (e2 : Bool) (A2 P2 : ℝ)
    (hv : ¬ validSlopes S_t S_b S_f) :
    (∀ eta t : List ℝ,
      (shoreline_location_advanced q_s eta t S_t S_f S_b).length = t.length ∧
      ∀ (i : ℕ), i < t.length →
        (shoreline_location_advanced q_s eta t S_t S_f S_b)[i]? = some none) ∧
    ¬ (runScenarioAdvanced q_s tmax S_t S_f S_b Z0 Zdot e1 A1 P1 e2 A2 P2).valid := by
  have hcond : S_t ≤ 0 ∨ S_b ≤ 0 ∨ S_f ≤ 0 ∨ ¬(S_t < S_b ∧ S_b < S_f) := not_not.mp hv
  constructor
  · intro eta t
    unfold shoreline_location_advanced
    rw [if_pos hcond]
    refine ⟨List.length_replicate t.length none, fun i hi => ?_⟩
    rw [List.getElem?_eq_getElem (by rw [List.length_replicate]; exact hi),
      List.getElem_replicate]
  · exact hv

/-- Witness for C4: a concrete scenario with inverted slopes
(topset 0.05, basement 0.01, foreset 0.1): sample 0 is NaN and the
result is flagged invalid. -/
theorem claim_C4_invalid_slopes_nan_witness :
    (shoreline_location_advanced 1 [1] [2] (5/100) (1/10) (1/100))[0]? = some none ∧
    ¬ (runScenarioAdvanced 1 10 (5/100) (1/10) (1/100) 1 0 false 0 0 false 0 0).valid := by
  have hv : ¬ validSlopes (5/100 : ℝ) (1/100) (1/10) := by
    rw [validSlopes_iff]; norm_num
  have h := claim_C4_invalid_slopes_nan 1 (5/100) (1/10) (1/100) 10 1 0
    false 0 0 false 0 0 hv
  exact ⟨(h.1 [1] [2]).2 0 (by simp), h.2⟩

/-- C5: with the N=500 time axis starting at `t = 0`, the first shoreline
sample is 0 (forced by the `t > 0` mask) and the first synthesized
sea-level sample equals the baseline `Z0`. -/
theorem claim_C5_first_samples (Qs tmax Z0 Zdot : ℝ) (e1 : Bool) (A1 P1 : ℝ)
    (e2 : Bool) (A2 P2 : ℝ) :
    (shoreline_location Qs
        (seaLevelSeries Z0 Zdot e1 A1 P1 e2 A2 P2 (linspace tmax 500))
        (linspace tmax 500))[0]? = some 0 ∧
    (seaLevelSeries Z0 Zdot e1 A1 P1 e2 A2 P2 (linspace tmax 500))[0]? = some Z0 := by
  have hlt : (linspace tmax 500).length = 500 := length_linspace tmax 500
  have h0 : 0 < (linspace tmax 500).length := by omega
  have ht0 : (linspace tmax 500)[0] = 0 := by
    have h := getElem?_linspace tmax 500 0 (by norm_num)
    rw [List.getElem?_eq_getElem h0] at h
    have h' := Option.some.inj h
    rw [h']
    norm_num
  have heta0 : (seaLevelSeries Z0 Zdot e1 A1 P1 e2 A2 P2 (linspace tmax 500))[0]? =
      some Z0 := by
    rw [getElem?_seaLevelSeries Z0 Zdot e1 A1 P1 e2 A2 P2 (linspace tmax 500) 0 h0]
    rw [ht0]
    unfold etaSpec
    simp
  refine ⟨?_, heta0⟩
  have hel : 0 < (seaLevelSeries Z0 Zdot e1 A1 P1 e2 A2 P2 (linspace tmax 500)).length := by
    rw [length_seaLevelSeries]; omega
  unfold shoreline_location
  rw [getElem?_map_zip _ _ _ 0 hel h0]
  rw [ht0]
  simp

/-- C6: the synthesizer computes, elementwise over the time axis,
`eta(t) = Z0 + Zdot*t + S1(t) + S2(t)` where sinusoid k contributes
`A_k * sin(2*pi*t/P_k)` exactly when it is enabled with `P_k > 0` and 0
otherwise; with both sinusoids disabled the output is the pure linear
trend `Z0 + Zdot*t` at every sample. -/
theorem claim_C6_sea_level_formula (Z0 Zdot : ℝ) (e1 : Bool) (A1 P1 : ℝ)
    (e2 : Bool) (A2 P2 : ℝ) (t : List ℝ) :
    (∀ (i : ℕ) (hi : i < t.length),
      (seaLevelSeries Z0 Zdot e1 A1 P1 e2 A2 P2 t)[i]? =
        some (Z0 + Zdot * t[i] +
          (if e1 = true ∧ 0 < P1 then A1 * Real.sin (2 * Real.pi * t[i] / P1) else 0) +
          (if e2 = true ∧ 0 < P2 then A2 * Real.sin (2 * Real.pi * t[i] / P2) else 0))) ∧
    (∀ (i : ℕ) (hi : i < t.length),
      (seaLevelSeries Z0 Zdot false A1 P1 false A2 P2 t)[i]? =
        some (Z0 + Zdot * t[i])) := by
  constructor
  · intro i hi
    rw [getElem?_seaLevelSeries Z0 Zdot e1 A1 P1 e2 A2 P2 t i hi]
    rfl
  · intro i hi
    rw [getElem?_seaLevelSeries Z0 Zdot false A1 P1 false A2 P2 t i hi]
    unfold etaSpec
    simp

/-- Witness for C6: a concrete one-sample axis, with sinusoid 1 enabled
and sinusoid 2 disabled. -/
theorem claim_C6_sea_level_formula_witness :
    (seaLevelSeries 1 2 true 3 4 false 5 6 [7])[0]? =
      some (1 + 2 * 7 +
        (if true = true ∧ (0 : ℝ) < 4 then 3 * Real.sin (2 * Real.pi * 7 / 4) else 0) +
        (if false = true ∧ (0 : ℝ) < 6 then 5 * Real.sin (2 * Real.pi * 7 / 6) else 0)) := by
  have h := (claim_C6_sea_level_formula 1 2 true 3 4 false 5 6 [7]).1 0 (by simp)
  simpa using h

/-! ### Range unification: guard elimination and NaN behaviour -/

theorem truthy_eq_true_iff (v : NFloat) : truthy v = true ↔ v ≠ some 0 := by
  cases v <;> simp [truthy]

theorem foldl_max_zero (l : List ℚ) (hz : ∀ x ∈ l, x = 0) :
    l.foldl max 0 = 0 := by
  induction l with
  | nil => rfl
  | cons a as ih =>
    have ha := hz a (by simp)
    rw [List.foldl_cons, ha, max_self]
    exact ih fun x hx => hz x (by simp [hx])

theorem foldl_min_zero (l : List ℚ) (hz : ∀ x ∈ l, x = 0) :
    l.foldl min 0 = 0 := by
  induction l with
  | nil => rfl
  | cons a as ih =>
    have ha := hz a (by simp)
    rw [List.foldl_cons, ha, min_self]
    exact ih fun x hx => hz x (by simp [hx])

theorem max?_all_zero (l : List ℚ) (hne : l ≠ []) (hz : ∀ x ∈ l, x = 0) :
    l.max? = some 0 := by
  cases l with
  | nil => cases hne rfl
  | cons a as =>
    have ha := hz a (by simp)
    have : (a :: as).max? = some (as.foldl max a) := rfl
    rw [this, ha, foldl_max_zero as fun x hx => hz x (by simp [hx])]

theorem min?_all_zero (l : List ℚ) (hne : l ≠ []) (hz : ∀ x ∈ l, x = 0) :
    l.min? = some 0 := by
  cases l with
  | nil => cases hne rfl
  | cons a as =>
    have ha := hz a (by simp)
    have : (a :: as).min? = some (as.foldl min a) := rfl
    rw [this, ha, foldl_min_zero as fun x hx => hz x (by simp [hx])]

theorem filterMap_id_all_zero (A : List NFloat) (hall : ∀ v ∈ A, v = some 0) :
    A.filterMap id = A.map fun _ => (0 : ℚ) := by
  induction A with
  | nil => rfl
  | cons a as ih =>
    have ha := hall a (by simp)
    rw [ha, List.map_cons, List.filterMap_cons]
    exact congrArg (List.cons 0) (ih fun v hv => hall v (by simp [hv]))

theorem filterMap_id_all_none (A : List NFloat) (hall : ∀ v ∈ A, v = none) :
    A.filterMap id = ([] : List ℚ) := by
  induction A with
  | nil => rfl
  | cons a as ih =>
    have ha := hall a (by simp)
    rw [ha, List.filterMap_cons]
    exact ih fun v hv => hall v (by simp [hv])

/-- On a nonempty series the `np.any` guard changes nothing: when the
guard fails every element is exactly `0.0`, and then `np.nanmax` is 0 as
well. -/
theorem contribMax_eq_nanmax (A : List NFloat) (hA : A ≠ []) :
    contribMax A = nanmax A := by
  unfold contribMax
  by_cases h : npAny A = true
  · rw [if_pos h]
  · rw [if_neg h]
    have hall : ∀ v ∈ A, v = some 0 := by
      intro v hv
      by_contra hne
      exact h (List.any_eq_true.mpr ⟨v, hv, (truthy_eq_true_iff v).mpr hne⟩)
    have hmap : A.filterMap id = A.map fun _ => (0 : ℚ) := filterMap_id_all_zero A hall
    have hnem : (A.map fun _ => (0 : ℚ)) ≠ [] := by
      intro hc
      exact hA (List.map_eq_nil_iff.mp hc)
    rw [nanmax, hmap, max?_all_zero _ hnem (by intro x hx; rcases List.mem_map.mp hx with ⟨w, _, hw⟩; exact hw.symm)]

/-- `np.nanmin` analogue of `contribMax_eq_nanmax`. -/
theorem contribMin_eq_nanmin (A : List NFloat) (hA : A ≠ []) :
    contribMin A = nanmin A := by
  unfold contribMin
  by_cases h : npAny A = true
  · rw [if_pos h]
  · rw [if_neg h]
    have hall : ∀ v ∈ A, v = some 0 := by
      intro v hv
      by_contra hne
      exact h (List.any_eq_true.mpr ⟨v, hv, (truthy_eq_true_iff v).mpr hne⟩)
    have hmap : A.filterMap id = A.map fun _ => (0 : ℚ) := filterMap_id_all_zero A hall
    have hnem : (A.map fun _ => (0 : ℚ)) ≠ [] := by
      intro hc
      exact hA (List.map_eq_nil_iff.mp hc)
    rw [nanmin, hmap, min?_all_zero _ hnem (by intro x hx; rcases List.mem_map.mp hx with ⟨w, _, hw⟩; exact hw.symm)]

/-- Counterexample to C7 as stated: for the shoreline pair
`A = B = [-2.0]` the code returns `-2.0` (no pad factor on the shoreline
minimum), while the claimed rule `min(nanmin(A), nanmin(B)) * 1.1`
(negative, hence not forced to 0) gives `-2.2`. -/
theorem claim_C7_counterexample :
    y_min_shore_pair [some (-2)] [some (-2)] = some (-2) ∧
    (pymin (nanmin [some (-2)]) (nanmin [some (-2)])).map (fun x => x * (11/10)) =
      some (-11/5) ∧
    y_min_shore_pair [some (-2)] [some (-2)] ≠
      (pymin (nanmin [some (-2)]) (nanmin [some (-2)])).map (fun x => x * (11/10)) := by
  refine ⟨?_, ?_, ?_⟩
  · simp [y_min_shore_pair, contribMin, npAny, truthy, nanmin, pymin, vlt, vgt]
  · simp [nanmin, pymin, vlt]
    norm_num
  · simp [y_min_shore_pair, contribMin, npAny, truthy, nanmin, pymin, vlt, vgt]
    norm_num

/-- C7 (amended): on nonempty series the guarded extremes reduce to plain
`nanmax`/`nanmin`; the pair maxima and the sea-level pair minimum are the
Python max/min of the two extremes times the pad factor 1.1, while the
shoreline pair minimum carries no pad factor and is forced to 0 exactly
when positive. -/
theorem claim_C7_range_rule (A B : List NFloat) (hA : A ≠ []) (hB : B ≠ []) :
    y_max_pair A B = (pymax (nanmax A) (nanmax B)).map (fun x => x * (11/10)) ∧
    y_min_eta_pair A B = (pymin (nanmin A) (nanmin B)).map (fun x => x * (11/10)) ∧
    y_min_shore_pair A B =
      (if vgt (pymin (nanmin A) (nanmin B)) (some 0) then some 0
       else pymin (nanmin A) (nanmin B)) := by
  rw [y_max_pair, y_min_eta_pair, y_min_shore_pair,
    contribMax_eq_nanmax A hA, contribMax_eq_nanmax B hB,
    contribMin_eq_nanmin A hA, contribMin_eq_nanmin B hB]
  exact ⟨rfl, rfl, rfl⟩

/-- Witness for C7 (amended): the rule applied to the concrete pair
`[1.0]`, `[-3.0]`. -/
theorem claim_C7_range_rule_witness :
    y_max_pair [some 1] [some (-3)] =
      (pymax (nanmax [some 1]) (nanmax [some (-3)])).map (fun x => x * (11/10)) ∧
    y_min_eta_pair [some 1] [some (-3)] =
      (pymin (nanmin [some 1]) (nanmin [some (-3)])).map (fun x => x * (11/10)) ∧
    y_min_shore_pair [some 1] [some (-3)] =
      (if vgt (pymin (nanmin [some 1]) (nanmin [some (-3)])) (some 0) then some 0
       else pymin (nanmin [some 1]) (nanmin [some (-3)])) :=
  claim_C7_range_rule [some 1] [some (-3)] (by simp) (by simp)

/-- Counterexample to C8 as stated: with the all-NaN series `A = [NaN]`
and `B = [1.0]`, the code's upper bound is NaN — `np.any([nan])` is true
(NaN is truthy), `np.nanmax([nan])` is NaN, and Python
`max(nan, 1.0) = nan` — not the claimed `max(0, nanmax(B)) * 1.1 = 1.1`. -/
theorem claim_C8_counterexample :
    y_max_pair [none] [some 1] = none ∧
    (pymax (some 0) (nanmax [some 1])).map (fun x => x * (11/10)) = some (11/10) ∧
    y_max_pair [none] [some 1] ≠
      (pymax (some 0) (nanmax [some 1])).map (fun x => x * (11/10)) := by
  refine ⟨?_, ?_, ?_⟩
  · simp [y_max_pair, contribMax, npAny, truthy, nanmax, pymax, vgt]
  · simp [nanmax, pymax, vgt]
  · simp [y_max_pair, contribMax, npAny, truthy, nanmax, pymax, vgt]

/-- C8 (amended): an all-NaN series passes the `np.any` guard (NaN is
truthy) and its `nanmax`/`nanmin` is NaN; both padded bounds are NaN when
the all-NaN series is the first of the pair, and when it is the second the
bounds are the other series' padded extremes, with no 0 substituted. -/
theorem claim_C8_all_nan_series (A B : List NFloat) (hA : A ≠ []) (hB : B ≠ [])
    (hall : ∀ v ∈ A, v = none) :
    npAny A = true ∧ nanmax A = none ∧ nanmin A = none ∧
    y_max_pair A B = none ∧ y_min_eta_pair A B = none ∧
    y_max_pair B A = (nanmax B).map (fun x => x * (11/10)) ∧
    y_min_eta_pair B A = (nanmin B).map (fun x => x * (11/10)) := by
  have hany : npAny A = true := by
    cases A with
    | nil => cases hA rfl
    | cons a as =>
      have ha := hall a (by simp)
      rw [ha]
      simp [npAny, truthy]
  have hmax : nanmax A = none := by
    rw [nanmax, filterMap_id_all_none A hall]
    rfl
  have hmin : nanmin A = none := by
    rw [nanmin, filterMap_id_all_none A hall]
    rfl
  have hcA : contribMax A = none := by rw [contribMax, if_pos hany, hmax]
  have hcA' : contribMin A = none := by rw [contribMin, if_pos hany, hmin]
  refine ⟨hany, hmax, hmin, ?_, ?_, ?_, ?_⟩
  · rw [y_max_pair, hcA]
    rcases hc : contribMax B with _ | q <;> simp [pymax, vgt, hc]
  · rw [y_min_eta_pair, hcA']
    rcases hc : contribMin B with _ | q <;> simp [pymin, vlt, hc]
  · rw [y_max_pair, hcA, contribMax_eq_nanmax B hB]
    rcases hc : nanmax B with _ | q <;> simp [pymax, vgt, hc]
  · rw [y_min_eta_pair, hcA', contribMin_eq_nanmin B hB]
    rcases hc : nanmin B with _ | q <;> simp [pymin, vlt, hc]

/-- Witness for C8 (amended): the all-NaN series `[NaN]` against `[1.0]`. -/
theorem claim_C8_all_nan_series_witness :
    npAny [none] = true ∧ nanmax [none] = none ∧ nanmin [none] = none ∧
    y_max_pair [none] [some 1] = none ∧ y_min_eta_pair [none] [some 1] = none ∧
    y_max_pair [some 1] [none] = (nanmax [some 1]).map (fun x => x * (11/10)) ∧
    y_min_eta_pair [some 1] [none] = (nanmin [some 1]).map (fun x => x * (11/10)) :=
  claim_C8_all_nan_series [none] [some 1] (by simp) (by simp) (by simp)

/-- Counterexample to C9 as stated: for the all-NaN shoreline pair
`A = B = [NaN]` the returned lower bound is NaN, and the float comparison
`NaN <= 0` is false, so "returned min <= 0" fails. -/
theorem claim_C9_counterexample :
    y_min_shore_pair [none] [none] = none ∧
    vle (y_min_shore_pair [none] [none]) (some 0) = false := by
  constructor
  · simp [y_min_shore_pair, contribMin, npAny, truthy, nanmin, pymin, vlt, vgt]
  · simp [y_min_shore_pair, contribMin, npAny, truthy, nanmin, pymin, vlt, vgt, vle]

/-- C9 (amended): the shoreline lower bound is never a positive number:
the Python test `min > 0` always comes out false on the returned value,
and whenever the returned value is a number (not NaN) it is at most 0. -/
theorem claim_C9_lower_bound (A B : List NFloat) :
    vgt (y_min_shore_pair A B) (some 0) = false ∧
    ∀ x : ℚ, y_min_shore_pair A B = some x → x ≤ 0 := by
  unfold y_min_shore_pair
  by_cases h : vgt (pymin (contribMin A) (contribMin B)) (some 0) = true
  · rw [if_pos h]
    constructor
    · simp [vgt]
    · intro x hx
      rw [(Option.some.inj hx).symm]
  · rw [if_neg h]
    constructor
    · exact Bool.not_eq_true _ ▸ Bool.of_not_eq_true h
    · intro x hx
      rw [hx] at h
      simp [vgt] at h
      exact h

/-- Witness for C9 (amended): the concrete shoreline pair `[-1.0]`,
`[2.0]`, whose returned lower bound is `-1.0 ≤ 0`. -/
theorem claim_C9_lower_bound_witness :
    vgt (y_min_shore_pair [some (-1)] [some 2]) (some 0) = false ∧
    (-1 : ℚ) ≤ 0 :=
  ⟨(claim_C9_lower_bound [some (-1)] [some 2]).1,
   (claim_C9_lower_bound [some (-1)] [some 2]).2 (-1)
     (by simp [y_min_shore_pair, contribMin, npAny, truthy, nanmin, pymin, vlt, vgt]
         norm_num)⟩

/-! ### NaN-freedom of the models -/

/-- Under validated slopes every checked operation of one masked-in
advanced sample succeeds: the three slope denominators are nonzero, the
clamped radicand is non-negative, and the sample value is exactly the
unchecked formula. -/
theorem advancedPointChecked_eq (q_s S_t S_f S_b : ℝ) (p : ℝ × ℝ)
    (hSt : 0 < S_t) (hSb : 0 < S_b) (hSf : 0 < S_f)
    (htb : S_t < S_b) (hbf : S_b < S_f) :
    advancedPointChecked q_s S_t S_f S_b p =
      some (-p.1 / S_b +
        Real.sqrt (if 2 * q_s * p.2 / (S_b * (S_t / (S_b - S_t) + S_f / (S_f - S_b))) < 0
          then 0
          else 2 * q_s * p.2 / (S_b * (S_t / (S_b - S_t) + S_f / (S_f - S_b))))) := by
  have h1 : S_b - S_t ≠ 0 := sub_ne_zero.mpr (ne_of_gt htb)
  have h2 : S_f - S_b ≠ 0 := sub_ne_zero.mpr (ne_of_gt hbf)
  have h3 : S_b * (S_t / (S_b - S_t) + S_f / (S_f - S_b)) ≠ 0 := by
    have ha : 0 < S_t / (S_b - S_t) := div_pos hSt (by linarith)
    have hb : 0 < S_f / (S_f - S_b) := div_pos hSf (by linarith)
    exact ne_of_gt (mul_pos hSb (by linarith))
  have h4 : S_b ≠ 0 := ne_of_gt hSb
  have h5 : ¬ ((if 2 * q_s * p.2 / (S_b * (S_t / (S_b - S_t) + S_f / (S_f - S_b))) < 0
      then (0 : ℝ)
      else 2 * q_s * p.2 / (S_b * (S_t / (S_b - S_t) + S_f / (S_f - S_b)))) < 0) := by
    by_cases harg : 2 * q_s * p.2 / (S_b * (S_t / (S_b - S_t) + S_f / (S_f - S_b))) < 0
    · rw [if_pos harg]
      exact lt_irrefl 0
    · rw [if_neg harg]
      exact harg
  unfold advancedPointChecked cdiv csqrt
  rw [if_neg h1]
  simp only [Option.some_bind]
  rw [if_neg h2]
  simp only [Option.some_bind]
  rw [if_neg h3]
  simp only [Option.some_bind]
  rw [if_neg h5]
  simp only [Option.some_bind]
  rw [if_neg h4]
  rfl

/-- C10: on validated slopes and arbitrary (finite) input arrays, every
element produced by the simple and by the advanced shoreline model is a
real number, never NaN: the checked evaluations — where division by zero
and a negative radicand return `none` — agree sample by sample with the
unchecked models, and the advanced model yields `some` at every index. -/
theorem claim_C10_no_nan (Qs q_s S_t S_f S_b : ℝ) (eta t : List ℝ)
    (hv : validSlopes S_t S_b S_f)
    (i : ℕ) (h1 : i < eta.length) (h2 : i < t.length) :
    (∃ x : ℝ, (shoreline_location Qs eta t)[i]? = some x ∧
      (shoreline_location_checked Qs eta t)[i]? = some (some x)) ∧
    (∃ r : ℝ, (shoreline_location_advanced q_s eta t S_t S_f S_b)[i]? = some (some r) ∧
      (shoreline_location_advanced_checked q_s eta t S_t S_f S_b)[i]? = some (some r)) := by
  obtain ⟨hSt, hSb, hSf, htb, hbf⟩ := (validSlopes_iff S_t S_b S_f).mp hv
  constructor
  · unfold shoreline_location shoreline_location_checked
    simp only [getElem?_map_zip _ eta t i h1 h2]
    by_cases hc : 0 < eta[i] ∧ 0 < t[i]
    · refine ⟨Qs * t[i] / eta[i], ?_, ?_⟩
      · rw [if_pos hc]
      · rw [if_pos hc, cdiv, if_neg (ne_of_gt hc.1)]
    · exact ⟨0, by rw [if_neg hc], by rw [if_neg hc]⟩
  · unfold shoreline_location_advanced shoreline_location_advanced_checked
    rw [if_neg hv]
    simp only [getElem?_map_zip _ eta t i h1 h2]
    by_cases hc : 0 < eta[i] ∧ 0 < t[i]
    · rw [if_pos hc, if_pos hc,
        advancedPointChecked_eq q_s S_t S_f S_b (eta[i], t[i]) hSt hSb hSf htb hbf]
      exact ⟨_, rfl, rfl⟩
    · rw [if_neg hc, if_neg hc]
      exact ⟨0, rfl, rfl⟩

/-- Witness for C10: the concrete validated scenario of the C1 witness. -/
theorem claim_C10_no_nan_witness :
    (∃ x : ℝ, (shoreline_location (1 : ℝ) [2] [3])[0]? = some x ∧
      (shoreline_location_checked (1 : ℝ) [2] [3])[0]? = some (some x)) ∧
    (∃ r : ℝ, (shoreline_location_advanced 1 [2] [3] (1/100) (1/10) (5/100))[0]? =
        some (some r) ∧
      (shoreline_location_advanced_checked 1 [2] [3] (1/100) (1/10) (5/100))[0]? =
        some (some r)) :=
  claim_C10_no_nan 1 1 (1/100) (1/10) (5/100) [2] [3]
    ((validSlopes_iff _ _ _).mpr (by norm_num)) 0 (by simp) (by simp)

end DeltaShoreline
